import Mathlib

/-!
Formal model of `yt_dlp/extractor/flomarching.py` (class `FloMarchingIE`) and
proofs about its stream-resolution behaviour.

Python strings are modelled as lists of characters, network and framework
helpers as explicit oracle parameters, raised exceptions as `Except.error`,
and `dict.get` lookups as `Option`.  Side-effecting `report_warning` calls are
modelled by returning a list of structured `Warning` values; purely
informational `to_screen` calls are not modelled.
-/

namespace FloMarching

/-- Python strings, modelled as lists of characters. -/
abbrev PyStr := List Char

/-- Python `str.lower()`, adequate for the ASCII stream names involved. -/
def pyLower (s : PyStr) : PyStr := s.map Char.toLower

/-- Python truthiness of an optional string: `None` and `''` are falsy. -/
def pyTruthy : Option PyStr → Bool
  | none => false
  | some s => !s.isEmpty

/-- Python substring test `t in s` (true iff `t` occurs contiguously in `s`;
the empty string is a substring of everything). -/
def pyContainsSub (s t : PyStr) : Bool :=
  (List.range (s.length + 1)).any fun i => (s.drop i).take t.length == t

/-- Python `a or b` on optional strings: `a` when truthy, else `b`. -/
def pyOr (a b : Option PyStr) : Option PyStr := if pyTruthy a then a else b

/-- Rendering of an optional string inside an f-string: `None` prints as the
four characters `None`, a string is interpolated verbatim. -/
def fstrOpt : Option PyStr → PyStr
  | none => "None".toList
  | some s => s

/-- A stream descriptor from the event registry, i.e. the JSON dict fields the
extractor and the spec refer to.  `id`, `name` and `code` model `stream.get`
lookups (`none` means the key is absent); `active` models the flag the spec
mentions in its selection rules (the extractor never reads it, which is part
of what the proofs establish). -/
structure StreamDesc where
  id : Option PyStr := none
  name : Option PyStr := none
  code : Option PyStr := none
  active : Bool := false
deriving DecidableEq, Repr

/-- `stream.get('name', '')` (flomarching.py lines 77 and 84). -/
def streamName (s : StreamDesc) : PyStr := s.name.getD []

/-- `stream.get('name', f'Stream ...id...')`, used for the available-stream
listing at line 92 and the display name at line 221. -/
def displayName (s : StreamDesc) : PyStr :=
  s.name.getD ("Stream ".toList ++ fstrOpt s.id)

/-- The `report_warning` messages of the extractor, one constructor per
f-string in the source, carrying the interpolated data. -/
inductive Warning where
  /-- line 93: Stream target not found, with the list of available names. -/
  | streamNotFound (target : PyStr) (available : List PyStr)
  /-- line 224: skipping a stream whose id is missing or falsy. -/
  | skipNoId (stream : StreamDesc)
  /-- line 234: no stream URI found in the token response for this stream. -/
  | noStreamUri (streamId : PyStr)
  /-- line 274: extraction of one stream failed with an ExtractorError. -/
  | streamFailed (streamId : PyStr) (displayName : PyStr) (err : PyStr)
deriving DecidableEq, Repr

/-- `FloMarchingIE._filter_stream_by_name` (lines 70-94).  A falsy target is
the identity; otherwise the first case-insensitive exact name match wins;
otherwise all case-insensitive substring name matches; otherwise the whole
list is returned together with a not-found warning.  The statements at lines
95-103 of the source sit after this final return and are unreachable; they are
modelled separately as `get_jwt_token_body`. -/
def filter_stream_by_name (stream_list : List StreamDesc) (target_name : Option PyStr) :
    List StreamDesc × List Warning :=
  if !pyTruthy target_name then (stream_list, [])
  else
    let t := target_name.getD []
    match stream_list.find? (fun s => pyLower (streamName s) == pyLower t) with
    | some stream => ([stream], [])
    | none =>
        let matching_streams := stream_list.filter
          (fun s => pyContainsSub (pyLower (streamName s)) (pyLower t))
        if matching_streams.isEmpty then
          (stream_list, [Warning.streamNotFound t (stream_list.map displayName)])
        else
          (matching_streams, [])

/-- Decimal rendering of an integer, as Python f-string formatting of an
`int` produces it. -/
def intDecimal (i : Int) : PyStr :=
  match i with
  | Int.ofNat n => Nat.toDigits 10 n
  | Int.negSucc _ => '-' :: Nat.toDigits 10 i.natAbs

/-- `FloMarchingIE._apply_time_parameters` (lines 46-68).  The reference time
`datetime.utcnow()` is passed explicitly as `nowSec` (unix seconds), so that
`int((utcnow() - timedelta(minutes=lb)).timestamp())` becomes
`nowSec - 60 * lb`.  The informational `to_screen` message is not modelled. -/
def apply_time_parameters (stream_uri : PyStr) (lookback_minutes : Int) (nowSec : Int) : PyStr :=
  if lookback_minutes ≤ 0 then stream_uri
  else
    let separator : PyStr := if stream_uri.contains '?' then "&".toList else "?".toList
    let unix_timestamp : Int := nowSec - 60 * lookback_minutes
    stream_uri ++ separator ++ "start=".toList ++ intDecimal unix_timestamp

/-- The `data` object inside a token-endpoint response body. -/
structure TokenData where
  uri : Option PyStr := none
  cleanUri : Option PyStr := none
deriving DecidableEq, Repr

/-- A token-endpoint response body, of which the extractor reads
`data.uri` and `data.cleanUri`. -/
structure TokenResp where
  data : Option TokenData := none
deriving DecidableEq, Repr

/-- `FloMarchingIE._get_stream_token` (lines 105-133).  The POST is performed
through the `download_json` oracle (whose failure models a raised
`ExtractorError`) and its parsed body is bound to the local `response`, but
the function body contains no return statement, so on success it returns
`None`. -/
def get_stream_token (download_json : PyStr → PyStr → Except PyStr TokenResp)
    (stream_id jwt_token : PyStr) : Except PyStr (Option TokenResp) :=
  match download_json stream_id jwt_token with
  | Except.error e => Except.error e
  | Except.ok _response => Except.ok none

/-- `traverse_obj(token_response, ('data', 'uri'))` (line 232). -/
def traverseUri (token_response : Option TokenResp) : Option PyStr :=
  (token_response.bind (fun r => r.data)).bind (fun d => d.uri)

/-- `traverse_obj(token_response, ('data', 'cleanUri'))` (line 232). -/
def traverseCleanUri (token_response : Option TokenResp) : Option PyStr :=
  (token_response.bind (fun r => r.data)).bind (fun d => d.cleanUri)

/-- One playable rendition, keeping the two fields the extractor touches
(lines 265-268); everything else about a format is opaque here. -/
structure Format where
  format_id : Option PyStr := none
  format_note : Option PyStr := none
deriving DecidableEq, Repr

/-- Lines 265-268: tag a format with the stream display name and, when a
`format_id` is present, suffix it with the normalized stream name. -/
def tag_format (stream_display_name : PyStr) (fmt : Format) : Format :=
  { fmt with
    format_note := some stream_display_name,
    format_id := fmt.format_id.map (fun i =>
      i ++ '-' :: pyLower (stream_display_name.map (fun c => if c = ' ' then '_' else c))) }

/-- Subtitle dictionaries: language key to list of subtitle entries; the
entries themselves are opaque. -/
abbrev Subs := List (PyStr × List PyStr)

/-- The framework helper `self._merge_subtitles(new, target=old)` (line 271),
modelled from the spec: subtitle tracks are merged into the overall
collection keyed by language, appending lists on key collision. -/
def merge_subtitles (target new : Subs) : Subs :=
  new.foldl (fun acc kv =>
    if acc.any (fun p => p.1 == kv.1) then
      acc.map (fun p => if p.1 == kv.1 then (p.1, p.2 ++ kv.2) else p)
    else acc ++ [kv]) target

/-- The ambient collaborators of the per-stream loop of `_real_extract`:
the token endpoint, the bearer token obtained earlier, the framework HLS
helper `_extract_m3u8_formats_and_subtitles` (called with `fatal=False`, so
it never raises and may return no formats), and the configured lookback with
the reference time used by `_apply_time_parameters`. -/
structure LoopEnv where
  download_json : PyStr → PyStr → Except PyStr TokenResp
  jwt_token : PyStr
  m3u8 : PyStr → List Format × Subs
  lookback_minutes : Int
  nowSec : Int

/-- One iteration of the per-stream loop of `_real_extract` (lines 219-275):
skip (with a warning) streams with a falsy id, exchange the id for a token,
read `data.uri or data.cleanUri` from the returned value, skip (with a
warning) when that is falsy, optionally rewrite the URI for lookback, extract
and tag formats; an ExtractorError anywhere in the body is caught, reported
as a warning, and the stream is skipped. -/
def process_stream (env : LoopEnv) (stream : StreamDesc) :
    List Format × Subs × List Warning :=
  let stream_display_name := displayName stream
  if !pyTruthy stream.id then ([], [], [Warning.skipNoId stream])
  else
    let stream_id := stream.id.getD []
    match get_stream_token env.download_json stream_id env.jwt_token with
    | Except.error e => ([], [], [Warning.streamFailed stream_id stream_display_name e])
    | Except.ok token_response =>
        let stream_uri := pyOr (traverseUri token_response) (traverseCleanUri token_response)
        if !pyTruthy stream_uri then ([], [], [Warning.noStreamUri stream_id])
        else
          let uri0 := stream_uri.getD []
          let uri := if 0 < env.lookback_minutes then
              apply_time_parameters uri0 env.lookback_minutes env.nowSec
            else uri0
          let extracted := env.m3u8 uri
          (extracted.1.map (tag_format stream_display_name), extracted.2, [])

/-- One `formats.extend` / `_merge_subtitles` / warning-accumulation step of
the loop (lines 270-271 and the warning sites). -/
def loopStep (acc r : List Format × Subs × List Warning) :
    List Format × Subs × List Warning :=
  (acc.1 ++ r.1, merge_subtitles acc.2.1 r.2.1, acc.2.2 ++ r.2.2)

/-- The whole per-stream loop (lines 216-275): iterate over the selected
streams in order, accumulating formats, subtitles and warnings. -/
def process_streams (env : LoopEnv) (streams : List StreamDesc) :
    List Format × Subs × List Warning :=
  (streams.map (process_stream env)).foldl loopStep ([], [], [])

/-- Exceptions observable from `_real_extract`. -/
inductive PyErr where
  /-- `ExtractorError(msg, expected=b)`. -/
  | extractorError (msg : PyStr) (expected : Bool)
  /-- Python `AttributeError` for a missing attribute of `self`. -/
  | attributeError (attr : PyStr)
deriving DecidableEq, Repr

/-- The info dict assembled at lines 284-293. -/
structure InfoDict where
  id : PyStr
  title : PyStr
  description : Option PyStr
  thumbnail : Option PyStr
  formats : List Format
  subtitles : Subs
  live_status : PyStr
  is_live : Bool
deriving DecidableEq, Repr

/-- Lines 216-293 of `_real_extract`: run the per-stream loop over the
selected streams, raise `ExtractorError('No playable streams found')` when no
formats were collected, adjust the title when a truthy stream name selected a
single stream, and assemble the result dict.  Title, description and
thumbnail are oracle inputs (lines 210-213 delegate to network helpers). -/
def build_result (env : LoopEnv) (event_id title : PyStr)
    (description thumbnail : Option PyStr)
    (stream_name : Option PyStr) (stream_list : List StreamDesc) :
    Except PyErr InfoDict :=
  let r := process_streams env stream_list
  if r.1.isEmpty then
    Except.error (PyErr.extractorError "No playable streams found".toList false)
  else
    let title2 :=
      if pyTruthy stream_name then
        match stream_list with
        | [s] => title ++ " - ".toList ++ s.name.getD (stream_name.getD [])
        | _ => title
      else title
    Except.ok
      { id := event_id, title := title2, description := description,
        thumbnail := thumbnail, formats := r.1, subtitles := r.2.1,
        live_status := "is_live".toList, is_live := true }

/-- Line 195: decode the app-state blob by replacing every occurrence of the
three-character sequence `&q;` with a double quote, left to right. -/
def decode_q : PyStr → PyStr
  | [] => []
  | '&' :: 'q' :: ';' :: rest => '"' :: decode_q rest
  | c :: rest => c :: decode_q rest

/-- The parsed flo-app-state value, of which the extractor reads only
`stream_list`; `traverse_obj(app_state, 'stream_list', expected_type=list)`
yields `None` when the field is missing or not a list, which `none` models. -/
structure AppState where
  stream_list : Option (List StreamDesc)

/-- Lines 188-204 of `_real_extract`: the regex search for the flo-app-state
script (fatal `ExtractorError` when absent, modelled by the `none` input),
the `&q;` decoding, the JSON parse through the `parse_json` oracle (a parse
failure raises a fatal `ExtractorError`), and the `stream_list` lookup (a
missing, non-list or empty list raises a fatal `ExtractorError`).  No
fallback API is consulted for the stream registry. -/
def get_stream_list (parse_json : PyStr → Except PyStr AppState)
    (app_state_script : Option PyStr) : Except PyErr (List StreamDesc) :=
  match app_state_script with
  | none => Except.error (PyErr.extractorError "Unable to extract app state".toList false)
  | some script =>
      let decoded_json := decode_q script
      match parse_json decoded_json with
      | Except.error e =>
          Except.error (PyErr.extractorError
            ("Failed to parse app state JSON: ".toList ++ e) false)
      | Except.ok app_state =>
          match app_state.stream_list with
          | some (s :: rest) => Except.ok (s :: rest)
          | _ => Except.error (PyErr.extractorError "No streams found in app state".toList false)

/-- The stream-selection step of `_real_extract` (lines 206-208): the
registry is passed through `_filter_stream_by_name` only when the configured
`stream_name` is truthy; otherwise it is used as-is, unfiltered. -/
def select_streams (stream_name : Option PyStr) (stream_list : List StreamDesc) :
    List StreamDesc × List Warning :=
  if pyTruthy stream_name then filter_stream_by_name stream_list stream_name
  else (stream_list, [])

/-- The actionable message of the intended cookie check (lines 99-102). -/
def jwtErrMsg : PyStr :=
  "JWT token not found in cookies. Please log in to FloMarching in your browser first.".toList

/-- The stranded statements at lines 95-103 of the source: the intended body
of a `_get_jwt_token` method, placed after the final return of
`_filter_stream_by_name` and therefore unreachable.  It reads the cookie jar
for `https://www.flomarching.com` and raises
`ExtractorError(..., expected=True)` with an actionable message when the
`jwt_token` cookie is absent, else returns the cookie value. -/
def get_jwt_token_body (cookies : List (PyStr × PyStr)) : Except PyErr PyStr :=
  match cookies.find? (fun p => p.1 == "jwt_token".toList) with
  | none => Except.error (PyErr.extractorError jwtErrMsg true)
  | some jwt_cookie => Except.ok jwt_cookie.2

/-- `FloMarchingIE._configuration_arg` (lines 31-36): the stub ignores the
extractor-args system entirely and always returns the supplied default. -/
def configuration_arg {α} (_ie_key _option_name : PyStr) (default : α) : α := default

/-- The parsed extractor arguments (lines 38-44). -/
structure ExtractorArgs where
  stream_name : Option PyStr
  delay_minutes : Int
  lookback_minutes : Int
deriving DecidableEq, Repr

/-- `FloMarchingIE._get_extractor_args` (lines 38-44); since
`_configuration_arg` always returns its default, this is the constant record
with no stream name, no delay and no lookback. -/
def get_extractor_args : ExtractorArgs :=
  { stream_name := configuration_arg "flomarching".toList "stream_name".toList none,
    delay_minutes := configuration_arg "flomarching".toList "delay_minutes".toList (0 : Int),
    lookback_minutes := configuration_arg "flomarching".toList "lookback_minutes".toList (0 : Int) }

/-- The external world of one `_real_extract` call: the cookie jar for the
site domain and the network-dependent oracles (event page download, JSON
parsing, token endpoint, HLS helper, reference time). -/
structure ExtractEnv where
  cookies : List (PyStr × PyStr)
  webpage : Except PyStr PyStr
  app_state_script : Option PyStr
  parse_json : PyStr → Except PyStr AppState
  download_json : PyStr → PyStr → Except PyStr TokenResp
  m3u8 : PyStr → List Format × Subs
  nowSec : Int

/-- `FloMarchingIE._real_extract` (lines 168-293).  After `_match_id`, the
argument parsing (all defaults, so `delay_minutes = 0` and no sleep occurs),
line 183 evaluates `self._get_jwt_token()`.  The class defines no attribute
`_get_jwt_token` (the intended method body is the unreachable code at lines
95-103, stranded inside `_filter_stream_by_name`), so Python raises
`AttributeError` here, before the webpage download at line 186 and before any
other network access; the remainder of the method is dead code, modelled by
the stage functions above. -/
def real_extract (_env : ExtractEnv) (_event_id : PyStr) : Except PyErr InfoDict :=
  let args := get_extractor_args
  let _stream_name := args.stream_name
  let _delay := args.delay_minutes
  Except.error (PyErr.attributeError "_get_jwt_token".toList)

deriving instance DecidableEq for Except

/-! Concrete data used to evaluate the model on closed inputs. -/

/-- A token endpoint whose response body carries `data.uri`, with a manifest
helper returning one format: the environment of the C1 evaluation. -/
def wEnv : LoopEnv :=
  { download_json := fun _ _ =>
      Except.ok { data := some { uri := some "https://cdn/x.m3u8".toList } },
    jwt_token := "jwt".toList,
    m3u8 := fun _ => ([{ format_id := some "hls-0".toList }], []),
    lookback_minutes := 0, nowSec := 0 }

/-- A well-formed stream descriptor with id 7. -/
def wStream : StreamDesc := { id := some "7".toList, name := some "Main".toList }

/-- An extraction environment with an empty cookie jar. -/
def wExtractEnv : ExtractEnv :=
  { cookies := [], webpage := Except.ok "page".toList, app_state_script := none,
    parse_json := fun _ => Except.error "no parse".toList,
    download_json := fun _ _ => Except.error "no net".toList,
    m3u8 := fun _ => ([], []), nowSec := 0 }

/-- A JSON parse oracle that fails on every input, as `_parse_json` does on a
malformed blob. -/
def cexParse : PyStr → Except PyStr AppState :=
  fun _ => Except.error "Expecting value: line 1 column 1 (char 0)".toList

/-- A blob that is not valid JSON after unescaping. -/
def cexScript : PyStr := "not json".toList

/-- Environment for the C4 evaluation: the token endpoint answers with a body
holding `data.uri` and the manifest helper returns one format. -/
def c4Env : LoopEnv :=
  { download_json := fun _ _ =>
      Except.ok { data := some { uri := some "https://cdn/x.m3u8".toList } },
    jwt_token := "tok".toList,
    m3u8 := fun _ => ([{ format_id := some "hls-0".toList }], []),
    lookback_minutes := 0, nowSec := 0 }

/-- The single selected stream of the C4 evaluation. -/
def c4Stream : StreamDesc := { id := some "100".toList, name := some "Main".toList }

/-- Registry entry with name Alpha, code m1, id 1. -/
def alphaStream : StreamDesc :=
  { id := some "1".toList, name := some "Alpha".toList, code := some "m1".toList }

/-- Registry entry with name Beta, code m2, id 2. -/
def betaStream : StreamDesc :=
  { id := some "2".toList, name := some "Beta".toList, code := some "m2".toList }

/-- First entry of the C5 witness registry. -/
def wc5a : StreamDesc := { id := some "1".toList, name := some "Beta Cam".toList }

/-- Second entry of the C5 witness registry, the exact-name match target. -/
def wc5b : StreamDesc := { id := some "2".toList, name := some "Main Camera".toList }

/-- First entry of the C6 registry, not flagged active. -/
def c6a : StreamDesc := { id := some "1".toList, name := some "Cam A".toList, active := false }

/-- Second entry of the C6 registry, flagged active. -/
def c6b : StreamDesc := { id := some "2".toList, name := some "Cam B".toList, active := true }

/-- C7 witness registry entry whose name substring-matches the hint. -/
def c7d1 : StreamDesc := { id := some "1".toList, name := some "Main Camera".toList }

/-- C7 witness registry entry whose name also substring-matches the hint. -/
def c7d2 : StreamDesc := { id := some "2".toList, name := some "main stage".toList }

/-- C7 witness registry entry whose name does not match the hint. -/
def c7d3 : StreamDesc := { id := some "3".toList, name := some "Other".toList }

/-- Environment whose token endpoint raises on every request. -/
def env9 : LoopEnv :=
  { download_json := fun _ _ => Except.error "boom".toList,
    jwt_token := "jwt".toList,
    m3u8 := fun _ => ([], []),
    lookback_minutes := 0, nowSec := 0 }

/-- The failing stream of the C9 witness. -/
def s9 : StreamDesc := { id := some "9".toList, name := some "Main".toList }

/-- A stream with no id, skipped independently of s9. -/
def g2 : StreamDesc := { name := some "NoId".toList }

/-- A one-entry registry for the C10 witness. -/
def d10 : StreamDesc := { id := some "5".toList, name := some "X".toList }

/-! Helper lemmas about the per-stream loop. -/

theorem bind_map_eq {α β γ : Type} (f : α → β) (g : β → List γ) (l : List α) :
    (l.map f).flatMap g = l.flatMap (fun x => g (f x)) := by
  induction l with
  | nil => rfl
  | cons a l ih => simp [ih]

theorem foldl_loopStep_fst (rs : List (List Format × Subs × List Warning)) :
    ∀ acc, (rs.foldl loopStep acc).1 = acc.1 ++ rs.flatMap (fun r => r.1) := by
  induction rs with
  | nil => intro acc; simp
  | cons r rs ih => intro acc; simp [loopStep, ih, List.append_assoc]

theorem foldl_loopStep_warn (rs : List (List Format × Subs × List Warning)) :
    ∀ acc, (rs.foldl loopStep acc).2.2 = acc.2.2 ++ rs.flatMap (fun r => r.2.2) := by
  induction rs with
  | nil => intro acc; simp
  | cons r rs ih => intro acc; simp [loopStep, ih, List.append_assoc]

theorem process_streams_fst (env : LoopEnv) (streams : List StreamDesc) :
    (process_streams env streams).1
      = streams.flatMap (fun s => (process_stream env s).1) := by
  unfold process_streams
  rw [foldl_loopStep_fst]
  simp [bind_map_eq]

theorem process_streams_warn (env : LoopEnv) (streams : List StreamDesc) :
    (process_streams env streams).2.2
      = streams.flatMap (fun s => (process_stream env s).2.2) := by
  unfold process_streams
  rw [foldl_loopStep_warn]
  simp [bind_map_eq]

theorem find_first_of_unique {α : Type} (p : α → Bool) (l : List α) (s : α)
    (hs : s ∈ l) (hp : p s = true) (huniq : ∀ x ∈ l, p x = true → x = s) :
    l.find? p = some s := by
  induction l with
  | nil => cases hs
  | cons a l ih =>
    by_cases ha : p a = true
    · have : a = s := huniq a (List.mem_cons_self a l) ha
      subst this
      simp [List.find?, ha]
    · have hne : a ≠ s := fun h => ha (h ▸ hp)
      have hmem : s ∈ l := by
        rcases List.mem_cons.mp hs with h | h
        · exact absurd h.symm hne
        · exact h
      simp only [List.find?, Bool.not_eq_true] at ha ⊢
      rw [ha]
      exact ih hmem (fun x hx hpx => huniq x (List.mem_cons_of_mem _ hx) hpx)

@[simp] theorem pyTruthy_none : pyTruthy none = false := rfl

@[simp] theorem pyTruthy_some (s : PyStr) : pyTruthy (some s) = !s.isEmpty := rfl

theorem process_stream_no_formats (env : LoopEnv) (s : StreamDesc) :
    (process_stream env s).1 = [] ∧ (process_stream env s).2.2.length = 1 := by
  unfold process_stream
  by_cases hid : pyTruthy s.id
  · cases hdl : env.download_json (s.id.getD []) env.jwt_token with
    | error e => simp [hid, get_stream_token, hdl]
    | ok r =>
        simp [hid, get_stream_token, hdl, pyOr, traverseUri, traverseCleanUri]
  · simp [hid]

theorem process_streams_skip_all (env : LoopEnv) (streams : List StreamDesc) :
    (process_streams env streams).1 = [] ∧
    (process_streams env streams).2.2.length = streams.length := by
  constructor
  · rw [process_streams_fst]
    induction streams with
    | nil => rfl
    | cons s l ih => simp [(process_stream_no_formats env s).1, ih]
  · rw [process_streams_warn]
    induction streams with
    | nil => rfl
    | cons s l ih =>
      simp only [List.flatMap_cons, List.length_append, List.length_cons,
        (process_stream_no_formats env s).2, ih]
      omega

/-- C1: `_get_stream_token` contains no return statement, so whenever it does
not raise it returns None; consequently the playback-URI lookup
(`data.uri` then `data.cleanUri`) yields None for every stream, every
selected stream is skipped with a warning (one warning per stream, no
formats), and whenever the per-stream loop is reached the extraction ends by
raising `ExtractorError('No playable streams found')`. -/
theorem c1_no_token_no_formats (env : LoopEnv) (streams : List StreamDesc)
    (event_id title : PyStr) (description thumbnail : Option PyStr)
    (stream_name : Option PyStr) :
    (∀ sid v, get_stream_token env.download_json sid env.jwt_token = Except.ok v → v = none) ∧
    (process_streams env streams).1 = [] ∧
    (process_streams env streams).2.2.length = streams.length ∧
    build_result env event_id title description thumbnail stream_name streams
      = Except.error (PyErr.extractorError "No playable streams found".toList false) := by
  have hret : ∀ sid v,
      get_stream_token env.download_json sid env.jwt_token = Except.ok v → v = none := by
    intro sid v h
    unfold get_stream_token at h
    cases hdl : env.download_json sid env.jwt_token with
    | error e => rw [hdl] at h; cases h
    | ok r => rw [hdl] at h; cases h; rfl
  have hfst := (process_streams_skip_all env streams).1
  have hwarn := (process_streams_skip_all env streams).2
  refine ⟨hret, hfst, hwarn, ?_⟩
  unfold build_result
  simp [hfst]

/-- C1 witness: in an environment whose token endpoint answers with a body
containing `data.uri` and whose manifest helper returns a format, the loop
still collects nothing and the final step still raises. -/
theorem c1_witness :
    (process_streams wEnv [wStream]).1 = [] ∧
    build_result wEnv "164101".toList "Title".toList none none none [wStream]
      = Except.error (PyErr.extractorError "No playable streams found".toList false) := by
  have h := c1_no_token_no_formats wEnv [wStream] "164101".toList "Title".toList none none none
  exact ⟨h.2.1, h.2.2.2⟩

/-- C2 (intended behaviour, broken by the code): with an empty cookie jar the
extraction should fail with the actionable cookie error before any network
access; instead `_real_extract` raises `AttributeError` at the
`self._get_jwt_token()` call (the method body exists only as unreachable code
inside `_filter_stream_by_name`), for every environment, while the stranded
body itself would have raised exactly the documented actionable error on an
empty jar. -/
theorem c2_missing_jwt_method (env : ExtractEnv) (event_id : PyStr)
    (hjar : env.cookies = []) :
    real_extract env event_id = Except.error (PyErr.attributeError "_get_jwt_token".toList) ∧
    real_extract env event_id ≠ Except.error (PyErr.extractorError jwtErrMsg true) ∧
    get_jwt_token_body env.cookies = Except.error (PyErr.extractorError jwtErrMsg true) := by
  refine ⟨rfl, ?_, ?_⟩
  · show Except.error (PyErr.attributeError "_get_jwt_token".toList)
      ≠ Except.error (PyErr.extractorError jwtErrMsg true)
    decide
  · rw [hjar]; rfl

/-- C2 witness: a concrete environment with an empty cookie jar. -/
theorem c2_witness :
    real_extract wExtractEnv "12345".toList
      = Except.error (PyErr.attributeError "_get_jwt_token".toList) ∧
    get_jwt_token_body wExtractEnv.cookies
      = Except.error (PyErr.extractorError jwtErrMsg true) := by
  have h := c2_missing_jwt_method wExtractEnv "12345".toList rfl
  exact ⟨h.1, h.2.2⟩

/-- C3 counterexample: on a blob that fails to parse, `_real_extract` raises
the fatal parse error; it does not fall through to a fallback registry API,
and in particular the failure is not the NoStreamsFound error the claim
reserves for an exhausted fallback. -/
theorem c3_counterexample :
    get_stream_list cexParse (some cexScript)
      = Except.error (PyErr.extractorError
          ("Failed to parse app state JSON: ".toList
            ++ "Expecting value: line 1 column 1 (char 0)".toList) false) ∧
    get_stream_list cexParse (some cexScript)
      ≠ Except.error (PyErr.extractorError "No streams found in app state".toList false) := by
  decide

/-- C3 amended: a parse failure of the flo-app-state blob is fatal,
raising `ExtractorError('Failed to parse app state JSON: ...')`; no fallback
metadata API is consulted, and the NoStreams error arises only when the blob
parses but `stream_list` is missing, not a list, or empty. -/
theorem c3_parse_failure_fatal (parse_json : PyStr → Except PyStr AppState)
    (txt e : PyStr) (st : AppState) :
    (parse_json (decode_q txt) = Except.error e →
      get_stream_list parse_json (some txt)
        = Except.error (PyErr.extractorError
            ("Failed to parse app state JSON: ".toList ++ e) false)) ∧
    (parse_json (decode_q txt) = Except.ok st →
      (st.stream_list = none ∨ st.stream_list = some []) →
      get_stream_list parse_json (some txt)
        = Except.error (PyErr.extractorError "No streams found in app state".toList false)) := by
  constructor
  · intro h
    simp [get_stream_list, h]
  · intro h hsl
    rcases hsl with h2 | h2 <;> simp [get_stream_list, h, h2]

/-- C3 witness: the amended behaviour evaluated on the concrete failing
parse. -/
theorem c3_witness :
    get_stream_list cexParse (some cexScript)
      = Except.error (PyErr.extractorError
          ("Failed to parse app state JSON: ".toList
            ++ "Expecting value: line 1 column 1 (char 0)".toList) false) := by
  exact (c3_parse_failure_fatal cexParse cexScript
    "Expecting value: line 1 column 1 (char 0)".toList ⟨none⟩).1 rfl

/-- C4 (intended behaviour broken by the code): the token endpoint answers
with a body carrying `data.uri` and the manifest helper yields a format, so
by the claim resolution should succeed with that stream's formats; the code
discards the response inside `_get_stream_token`, skips the stream with a
no-URI warning, and raises `ExtractorError('No playable streams found')`. -/
theorem c4_discarded_token_response :
    c4Env.download_json "100".toList c4Env.jwt_token
      = Except.ok { data := some { uri := some "https://cdn/x.m3u8".toList } } ∧
    (c4Env.m3u8 "https://cdn/x.m3u8".toList).1 ≠ [] ∧
    process_stream c4Env c4Stream = ([], [], [Warning.noStreamUri "100".toList]) ∧
    build_result c4Env "164101".toList "Title".toList none none none [c4Stream]
      = Except.error (PyErr.extractorError "No playable streams found".toList false) := by
  decide

/-- C5 counterexample: the hint m2 is exactly the `code` of betaStream and
equals no other descriptor key, yet selection returns the whole registry
rather than betaStream alone: only names are consulted, never code or id. -/
theorem c5_counterexample :
    (filter_stream_by_name [alphaStream, betaStream] (some "m2".toList)).1
      = [alphaStream, betaStream] ∧
    (filter_stream_by_name [alphaStream, betaStream] (some "m2".toList)).1
      ≠ [betaStream] := by
  decide

/-- C5 amended: a selection hint that is exactly (case-insensitively) equal
to the name of a unique descriptor selects exactly that descriptor and no
others, regardless of its position in registry order; the descriptor's code
and id are not consulted by exact matching. -/
theorem c5_exact_name_match (stream_list : List StreamDesc) (t : PyStr) (s : StreamDesc)
    (ht : t ≠ [])
    (hs : s ∈ stream_list) (hname : pyLower (streamName s) = pyLower t)
    (huniq : ∀ x ∈ stream_list, pyLower (streamName x) = pyLower t → x = s) :
    filter_stream_by_name stream_list (some t) = ([s], []) := by
  have htruthy : pyTruthy (some t) = true := by
    simp [pyTruthy, List.isEmpty_iff, ht]
  have hfind : stream_list.find? (fun x => pyLower (streamName x) == pyLower t) = some s := by
    apply find_first_of_unique _ _ _ hs
    · simp [hname]
    · intro x hx hpx
      exact huniq x hx (by simpa using hpx)
  unfold filter_stream_by_name
  simp [htruthy, hfind]

/-- C5 witness: the hint exactly matches the second entry's name
case-insensitively, and that entry alone is selected. -/
theorem c5_witness :
    filter_stream_by_name [wc5a, wc5b] (some "main camera".toList) = ([wc5b], []) := by
  exact c5_exact_name_match [wc5a, wc5b] "main camera".toList wc5b
    (by decide) (by decide) (by decide) (by decide)

/-- C6 counterexample: a two-entry registry whose second entry is flagged
active, with no selection hint: the code selects BOTH entries (the registry
passes through unfiltered), not the single active entry, and emits no
warning. -/
theorem c6_counterexample :
    (select_streams none [c6a, c6b]).1 = [c6a, c6b] ∧
    (select_streams none [c6a, c6b]).1.length ≠ 1 ∧
    (select_streams none [c6a, c6b]).1 ≠ [c6b] ∧
    (select_streams none [c6a, c6b]).2 = [] := by
  decide

/-- C6 amended: with no (or a falsy) selection hint the registry passes
through selection unchanged: all N entries are selected, the active flag is
never consulted, and no warning is emitted; in particular exactly one stream
is selected when N = 1. -/
theorem c6_no_hint_identity (stream_name : Option PyStr) (stream_list : List StreamDesc)
    (h : pyTruthy stream_name = false) :
    select_streams stream_name stream_list = (stream_list, []) ∧
    (stream_list.length = 1 → (select_streams stream_name stream_list).1.length = 1) := by
  have hsel : select_streams stream_name stream_list = (stream_list, []) := by
    simp [select_streams, h]
  exact ⟨hsel, fun hl => by rw [hsel]; exact hl⟩

/-- C6 witness: a singleton registry with no hint selects exactly one
stream. -/
theorem c6_witness :
    select_streams none [c6a] = ([c6a], []) ∧
    (select_streams none [c6a]).1.length = 1 := by
  have h := c6_no_hint_identity none [c6a] rfl
  exact ⟨h.1, h.2 rfl⟩

/-- C7: with a truthy hint that exactly matches no descriptor name: when at
least two names substring-match the hint case-insensitively, all
substring-matching descriptors (and no others) are returned; when no name
matches at all, the whole registry is returned and a warning carrying the
available names is emitted. -/
theorem c7_substring_and_fallback (stream_list : List StreamDesc) (t : PyStr)
    (ht : pyTruthy (some t) = true)
    (hexact : ∀ s ∈ stream_list, pyLower (streamName s) ≠ pyLower t) :
    (2 ≤ (stream_list.filter
          (fun s => pyContainsSub (pyLower (streamName s)) (pyLower t))).length →
      filter_stream_by_name stream_list (some t)
        = (stream_list.filter
            (fun s => pyContainsSub (pyLower (streamName s)) (pyLower t)), [])) ∧
    (stream_list.filter (fun s => pyContainsSub (pyLower (streamName s)) (pyLower t)) = [] →
      filter_stream_by_name stream_list (some t)
        = (stream_list, [Warning.streamNotFound t (stream_list.map displayName)])) := by
  have hfind : stream_list.find? (fun x => pyLower (streamName x) == pyLower t) = none := by
    rw [List.find?_eq_none]
    intro x hx
    simpa using hexact x hx
  constructor
  · intro hlen
    have hne : stream_list.filter
        (fun s => pyContainsSub (pyLower (streamName s)) (pyLower t)) ≠ [] := by
      intro h0
      rw [h0] at hlen
      simp at hlen
    unfold filter_stream_by_name
    simp [ht, hfind, List.isEmpty_iff, hne]
  · intro hempty
    unfold filter_stream_by_name
    simp [ht, hfind, hempty]

/-- C7 witness: the hint MAIN exactly matches no name, substring-matches two
of the three names, and selection returns exactly those two. -/
theorem c7_witness :
    filter_stream_by_name [c7d1, c7d2, c7d3] (some "MAIN".toList) = ([c7d1, c7d2], []) := by
  have h := c7_substring_and_fallback [c7d1, c7d2, c7d3] "MAIN".toList (by decide) (by decide)
  exact (h.1 (by decide)).trans (by decide)

/-- C8: for a positive lookback at reference time T, the rewriting appends
start equal to T minus 60 times the lookback minutes, with a question mark
separator when the URI has no query string and an ampersand when it already
has one; in particular the two URIs of the spec example rewrite as stated. -/
theorem c8_lookback_rewrite (uri : PyStr) (lb nowSec : Int) (h : 0 < lb) :
    apply_time_parameters uri lb nowSec
      = uri ++ (if uri.contains '?' then "&".toList else "?".toList)
          ++ "start=".toList ++ intDecimal (nowSec - 60 * lb) ∧
    apply_time_parameters "https://x/y.m3u8".toList 10 nowSec
      = "https://x/y.m3u8?start=".toList ++ intDecimal (nowSec - 600) ∧
    apply_time_parameters "https://x/y.m3u8?a=1".toList 10 nowSec
      = "https://x/y.m3u8?a=1&start=".toList ++ intDecimal (nowSec - 600) := by
  have hmain : ∀ (u : PyStr) (lbm now : Int), 0 < lbm →
      apply_time_parameters u lbm now
        = u ++ (if u.contains '?' then "&".toList else "?".toList)
            ++ "start=".toList ++ intDecimal (now - 60 * lbm) := by
    intro u lbm now hlb
    unfold apply_time_parameters
    rw [if_neg (by omega)]
  refine ⟨hmain uri lb nowSec h, ?_, ?_⟩
  · rw [hmain _ 10 nowSec (by norm_num)]
    have hc : ("https://x/y.m3u8".toList).contains '?' = false := by decide
    rw [hc]
    have h60 : nowSec - 60 * 10 = nowSec - 600 := by ring
    rw [h60]
    simp only [Bool.false_eq_true, if_false]
    exact congrArg (fun l => l ++ intDecimal (nowSec - 600))
      (show "https://x/y.m3u8".toList ++ "?".toList ++ "start=".toList
          = "https://x/y.m3u8?start=".toList by decide)
  · rw [hmain _ 10 nowSec (by norm_num)]
    have hc : ("https://x/y.m3u8?a=1".toList).contains '?' = true := by decide
    rw [hc]
    have h60 : nowSec - 60 * 10 = nowSec - 600 := by ring
    rw [h60]
    simp only [if_true]
    exact congrArg (fun l => l ++ intDecimal (nowSec - 600))
      (show "https://x/y.m3u8?a=1".toList ++ "&".toList ++ "start=".toList
          = "https://x/y.m3u8?a=1&start=".toList by decide)

/-- C8 witness: lookback of 10 minutes at unix time 1000 appends start=400
behind a question mark. -/
theorem c8_witness :
    apply_time_parameters "https://x/y.m3u8".toList 10 1000
      = "https://x/y.m3u8?start=".toList ++ intDecimal 400 := by
  have h := (c8_lookback_rewrite "https://x/y.m3u8".toList 10 1000 (by norm_num)).2.1
  have h4 : (1000 : Int) - 600 = 400 := by norm_num
  rw [h4] at h
  exact h

/-- C9: a per-stream token-exchange failure is caught by the loop: the
failing stream contributes no formats and exactly its failure warning, and
the contributions of the streams before and after it are exactly those they
contribute on their own, in selection order. -/
theorem c9_per_stream_isolation (env : LoopEnv) (l1 l2 : List StreamDesc)
    (s : StreamDesc) (sid e : PyStr)
    (hid : s.id = some sid) (hsid : sid ≠ [])
    (hfail : env.download_json sid env.jwt_token = Except.error e) :
    (process_streams env (l1 ++ s :: l2)).1
      = (process_streams env l1).1 ++ (process_streams env l2).1 ∧
    (process_streams env (l1 ++ s :: l2)).2.2
      = (process_streams env l1).2.2
        ++ Warning.streamFailed sid (displayName s) e :: (process_streams env l2).2.2 := by
  have hemp : sid.isEmpty = false := by
    simpa [List.isEmpty_iff] using hsid
  have hps : process_stream env s
      = ([], [], [Warning.streamFailed sid (displayName s) e]) := by
    unfold process_stream
    simp [hid, hemp, get_stream_token, hfail]
  constructor
  · rw [process_streams_fst, process_streams_fst, process_streams_fst]
    simp [hps]
  · rw [process_streams_warn, process_streams_warn, process_streams_warn]
    simp [hps]

/-- C9 witness: with a token endpoint that raises on every request, the
failing stream s9 contributes exactly its warning and the id-less stream
after it is still processed (and skipped on its own terms). -/
theorem c9_witness :
    (process_streams env9 ([] ++ s9 :: [g2])).1
      = (process_streams env9 []).1 ++ (process_streams env9 [g2]).1 ∧
    (process_streams env9 ([] ++ s9 :: [g2])).2.2
      = (process_streams env9 []).2.2
        ++ Warning.streamFailed "9".toList (displayName s9) "boom".toList
          :: (process_streams env9 [g2]).2.2 := by
  exact c9_per_stream_isolation env9 [] [g2] s9 "9".toList "boom".toList rfl (by decide) rfl

/-- C10: stream filtering with a falsy selection hint (None or the empty
string) is the identity on the stream list and emits nothing. -/
theorem c10_falsy_hint_identity (stream_list : List StreamDesc) (target_name : Option PyStr)
    (h : pyTruthy target_name = false) :
    filter_stream_by_name stream_list target_name = (stream_list, []) := by
  unfold filter_stream_by_name
  simp [h]

/-- C10 witness: both falsy hints leave a concrete registry unchanged. -/
theorem c10_witness :
    filter_stream_by_name [d10] none = ([d10], []) ∧
    filter_stream_by_name [d10] (some []) = ([d10], []) := by
  exact ⟨c10_falsy_hint_identity [d10] none rfl, c10_falsy_hint_identity [d10] (some []) rfl⟩

end FloMarching
